import Mathlib

/-!
Verification of the `capable` example pipeline
(`src/examples/capable/src/main.rs`): a userspace tracer that
configures a kernel-resident BPF program, decodes its binary event
records, and renders them to the console and a log file.

The definitions below are a shallow embedding of that source file.
Pieces of the repository that are generated outside `src/` (the BPF
skeleton's `event` struct layout and the BPF map-update semantics) are
modelled from the specification and marked as such in the doc comments.
-/

namespace Capable

/-! ### Uniqueness mode (`capable_rodata_types::uniqueness`) -/

/-- The uniqueness enum referenced by `main.rs` as
`uniqueness::UNQ_OFF`, `uniqueness::UNQ_PID`, `uniqueness::UNQ_CGROUP`. -/
inductive uniqueness where
  | UNQ_OFF
  | UNQ_PID
  | UNQ_CGROUP
deriving DecidableEq, Repr

/-- ASCII lowercasing of a character, mirroring what Rust
`str::to_lowercase` does on the ASCII inputs this tool deals with. -/
def charToLower (c : Char) : Char :=
  if 65 ≤ c.toNat ∧ c.toNat ≤ 90 then Char.ofNat (c.toNat + 32) else c

/-- Lowercasing of a string (ASCII range), modelling
`unq_type.to_lowercase()` in `uniqueness::from_str`. -/
def strToLower (s : String) : String :=
  String.mk (s.data.map charToLower)

/-- The fixed error message returned by `uniqueness::from_str` for an
unrecognized token (line 83 of `main.rs`). -/
def uniquenessErrMsg : String := "Use 1 for pid (default), 2 for cgroups"

/-- Embedding of `impl FromStr for uniqueness` (`main.rs` lines 75-86):
lowercase the token, then match it against `"off"`, `"pid"`,
`"cgroup"`; anything else is an error with the fixed message. -/
def uniquenessFromStr (unq_type : String) : Except String uniqueness :=
  let unq_type_lower := strToLower unq_type
  if unq_type_lower = "off" then Except.ok uniqueness.UNQ_OFF
  else if unq_type_lower = "pid" then Except.ok uniqueness.UNQ_PID
  else if unq_type_lower = "cgroup" then Except.ok uniqueness.UNQ_CGROUP
  else Except.error uniquenessErrMsg

/-! ### Capability name registry (`CAPS`, `main.rs` lines 31-73) -/

/-- The static `phf_map!` from capability id to canonical name,
embedded as an association list in the source order. -/
def CAPS : List (Int × String) :=
  [(0, "CAP_CHOWN"),
   (1, "CAP_DAC_OVERRIDE"),
   (2, "CAP_DAC_READ_SEARCH"),
   (3, "CAP_FOWNER"),
   (4, "CAP_FSETID"),
   (5, "CAP_KILL"),
   (6, "CAP_SETGID"),
   (7, "CAP_SETUID"),
   (8, "CAP_SETPCAP"),
   (9, "CAP_LINUX_IMMUTABLE"),
   (10, "CAP_NET_BIND_SERVICE"),
   (11, "CAP_NET_BROADCAST"),
   (12, "CAP_NET_ADMIN"),
   (13, "CAP_NET_RAW"),
   (14, "CAP_IPC_LOCK"),
   (15, "CAP_IPC_OWNER"),
   (16, "CAP_SYS_MODULE"),
   (17, "CAP_SYS_RAWIO"),
   (18, "CAP_SYS_CHROOT"),
   (19, "CAP_SYS_PTRACE"),
   (20, "CAP_SYS_PACCT"),
   (21, "CAP_SYS_ADMIN"),
   (22, "CAP_SYS_BOOT"),
   (23, "CAP_SYS_NICE"),
   (24, "CAP_SYS_RESOURCE"),
   (25, "CAP_SYS_TIME"),
   (26, "CAP_SYS_TTY_CONFIG"),
   (27, "CAP_MKNOD"),
   (28, "CAP_LEASE"),
   (29, "CAP_AUDIT_WRITE"),
   (30, "CAP_AUDIT_CONTROL"),
   (31, "CAP_SETFCAP"),
   (32, "CAP_MAC_OVERRIDE"),
   (33, "CAP_MAC_ADMIN"),
   (34, "CAP_SYSLOG"),
   (35, "CAP_WAKE_ALARM"),
   (36, "CAP_BLOCK_SUSPEND"),
   (37, "CAP_AUDIT_READ"),
   (38, "CAP_PERFMON"),
   (39, "CAP_BPF"),
   (40, "CAP_CHECKPOINT_RESTORE")]

/-- `CAPS.get(&id)`: lookup in the static map. -/
def capsGet (id : Int) : Option String :=
  (CAPS.find? (fun p => p.1 == id)).map (fun p => p.2)

/-- The lookup as used in `handle_event` (lines 220-223): a found name,
or the unknown marker `"?"`. Total by construction. -/
def capName (id : Int) : String :=
  match capsGet id with
  | some x => x
  | none => "?"

/-! ### Event record codec

The `capable_bss_types::event` struct is generated BPF-skeleton code
that is not under `src/`.  Modelled from the spec: fixed binary record
layout `\x7buid, tgid, pid, comm[16 bytes], cap: i32, audit: bool,
insetid: bool\x7d`, laid out at fixed offsets with C alignment
(three little-endian `u32`s at offsets 0/4/8, 16 comm bytes at offset
12, a little-endian `i32` at offset 28, one-byte flags at offsets 32
and 33, and two tail padding bytes, for a total size of 36). -/

/-- Byte at index `i` of a buffer (0 beyond the end; reads in the codec
are always within bounds). -/
def byteAt (l : List Nat) (i : Nat) : Nat := l.getD i 0

/-- Little-endian unsigned 32-bit read at a byte offset. -/
def readU32 (l : List Nat) (off : Nat) : Nat :=
  byteAt l off + 256 * byteAt l (off + 1) + 65536 * byteAt l (off + 2) +
    16777216 * byteAt l (off + 3)

/-- Little-endian signed (two's complement) 32-bit read. -/
def readI32 (l : List Nat) (off : Nat) : Int :=
  let u := readU32 l off
  if u < 2147483648 then (u : Int) else (u : Int) - 4294967296

/-- Size in bytes of the fixed event record (see the layout note above). -/
def eventSize : Nat := 36

/-- The raw event as filled in by `plain::copy_from_bytes`: numeric
fields plus the untranslated 16 comm bytes. -/
structure RawEvent where
  uid : Nat
  tgid : Nat
  pid : Nat
  comm : List Nat
  cap : Int
  audit : Bool
  insetid : Bool
deriving DecidableEq, Repr

/-- Embedding of `plain::copy_from_bytes(&mut event, data)`
(`main.rs` line 215): fails iff the buffer is shorter than the record,
and otherwise reads the fields from the first `eventSize` bytes only
(extra trailing bytes are ignored). -/
def decodeRaw (data : List Nat) : Option RawEvent :=
  if data.length < eventSize then none
  else
    let b := data.take eventSize
    some { uid := readU32 b 0
           tgid := readU32 b 4
           pid := readU32 b 8
           comm := (b.drop 12).take 16
           cap := readI32 b 28
           audit := byteAt b 32 != 0
           insetid := byteAt b 33 != 0 }

/-- Is `b` a UTF-8 continuation byte (`0x80..=0xBF`)? -/
def isCont (b : Nat) : Bool := 128 ≤ b && b ≤ 191

/-- UTF-8 decoding with exactly the validation rules of Rust
`std::str::from_utf8` (RFC 3629: no overlong forms, no surrogates,
nothing above U+10FFFF); `none` on any invalid sequence. -/
def utf8Decode : List Nat → Option (List Char)
  | [] => some []
  | b1 :: rest =>
    if b1 < 128 then
      (utf8Decode rest).map (fun cs => Char.ofNat b1 :: cs)
    else if 194 ≤ b1 && b1 ≤ 223 then
      match rest with
      | b2 :: rest2 =>
        if isCont b2 then
          (utf8Decode rest2).map (fun cs => Char.ofNat ((b1 - 192) * 64 + (b2 - 128)) :: cs)
        else none
      | [] => none
    else if 224 ≤ b1 && b1 ≤ 239 then
      match rest with
      | b2 :: b3 :: rest3 =>
        let b2ok : Bool :=
          if b1 = 224 then 160 ≤ b2 && b2 ≤ 191
          else if b1 = 237 then 128 ≤ b2 && b2 ≤ 159
          else isCont b2
        if b2ok && isCont b3 then
          (utf8Decode rest3).map (fun cs =>
            Char.ofNat ((b1 - 224) * 4096 + (b2 - 128) * 64 + (b3 - 128)) :: cs)
        else none
      | _ => none
    else if 240 ≤ b1 && b1 ≤ 244 then
      match rest with
      | b2 :: b3 :: b4 :: rest4 =>
        let b2ok : Bool :=
          if b1 = 240 then 144 ≤ b2 && b2 ≤ 191
          else if b1 = 244 then 128 ≤ b2 && b2 ≤ 143
          else isCont b2
        if b2ok && isCont b3 && isCont b4 then
          (utf8Decode rest4).map (fun cs =>
            Char.ofNat ((b1 - 240) * 262144 + (b2 - 128) * 4096 +
              (b3 - 128) * 64 + (b4 - 128)) :: cs)
        else none
      | _ => none
    else none

/-- Drop trailing NUL characters, mirroring
`.trim_end_matches(char::from(0))`. -/
def trimTrailingNul (cs : List Char) : List Char :=
  (cs.reverse.dropWhile (fun c => c = Char.ofNat 0)).reverse

/-- Embedding of `std::str::from_utf8(&event.comm).unwrap()
.trim_end_matches(char::from(0))` (`main.rs` lines 217-219):
`none` exactly when the comm bytes are not valid UTF-8. -/
def commText (bytes : List Nat) : Option String :=
  (utf8Decode bytes).map (fun cs => String.mk (trimTrailingNul cs))

/-- A fully decoded event as used for rendering. -/
structure Event where
  uid : Nat
  tgid : Nat
  pid : Nat
  comm : String
  cap : Int
  audit : Bool
  insetid : Bool
deriving DecidableEq, Repr

/-- The complete per-sample decode stage of `handle_event`
(lines 214-219): length-checked raw copy, then UTF-8 interpretation
of the comm bytes. `none` means the stage panics (fatal). -/
def decodeEvent (data : List Nat) : Option Event :=
  match decodeRaw data with
  | none => none
  | some r =>
    match commText r.comm with
    | none => none
    | some c =>
      some { uid := r.uid, tgid := r.tgid, pid := r.pid, comm := c,
             cap := r.cap, audit := r.audit, insetid := r.insetid }

/-! ### Trace model of `main` (`main.rs` lines 148-274)

`main` is straight-line startup code followed by an unbounded poll
loop whose work happens in the `handle_event` / `handle_lost_events`
callbacks.  We embed a run as the list of observable steps it
performs, parameterised by an environment that resolves every
fallible external call (file opens, writes, the perf items the kernel
delivers).  A step list ending in `Step.fatal` models process
termination at that point (a `panic!`, `unwrap`, `expect` or `?`
early return). -/

/-- The parsed command-line options (struct `Command`, lines 89-113). -/
structure Command where
  verbose : Bool
  pid : Nat
  extra_fields : Bool
  unique_type : uniqueness
  debug : Bool
  cgroups_path : String
  output_file : String
deriving DecidableEq, Repr

/-- The kernel program's pre-load configuration region
(`rodata().tool_config`, written at lines 161-163). -/
structure ToolConfig where
  tgid : Nat
  verbose : Bool
  unique_type : uniqueness
deriving DecidableEq, Repr

/-- A rendered output line: the layout header or one event line in
either of the two column layouts. The standard layout (lines 253-263)
shows TIME, UID, PID(tgid), COMM, CAP, NAME, AUDIT; the extra layout
(lines 225-251) additionally shows TID(pid) and INSETID. -/
inductive Line where
  | header (extra : Bool)
  | eventStd (uid tgid : Nat) (comm : String) (cap : Int) (name : String) (audit : Bool)
  | eventExtra (uid tgid pid : Nat) (comm : String) (cap : Int) (name : String)
      (audit insetid : Bool)
deriving DecidableEq, Repr

/-- Is this line a header line? -/
def Line.isHeader : Line → Bool
  | Line.header _ => true
  | _ => false

/-- The column layout a line belongs to (`true` = extra fields). -/
def Line.layout : Line → Bool
  | Line.header e => e
  | Line.eventStd _ _ _ _ _ _ => false
  | Line.eventExtra _ _ _ _ _ _ _ _ => true

/-- Render one decoded event in the layout selected by
`opts.extra_fields`, exactly the fields written by `handle_event`
(the timestamp column is elided: it is wall-clock environment data). -/
def renderLine (extra : Bool) (e : Event) : Line :=
  if extra then
    Line.eventExtra e.uid e.tgid e.pid e.comm e.cap (capName e.cap) e.audit e.insetid
  else
    Line.eventStd e.uid e.tgid e.comm e.cap (capName e.cap) e.audit

/-- One item delivered by the perf buffer: a sample (with the outcome
the environment assigns to its file write) or a lost-events report. -/
inductive PerfItem where
  | sample (data : List Nat) (fileWriteOk : Bool)
  | lost (cpu : Int) (count : Nat)
deriving DecidableEq, Repr

/-- Observable steps of a run. `fileWrite` records the attempt and its
outcome; `diag` is a line on the diagnostic channel (stderr). -/
inductive Step where
  | rlimit
  | fatal (msg : String)
  | skOpen
  | setTgid (v : Nat)
  | setVerbose (v : Bool)
  | setUnique (v : uniqueness)
  | load (cfg : ToolConfig)
  | openCgroup (path : String)
  | mapUpdate (table : String) (key : Nat) (fd : Nat) (flag : Nat)
  | attach
  | removeFile (path : String)
  | openOutput (path : String) (create write append truncate : Bool)
  | consoleWrite (l : Line)
  | fileWrite (l : Line) (ok : Bool)
  | diag (msg : String)
deriving DecidableEq, Repr

/-- Steps that talk to the kernel about the BPF program: loading it,
updating one of its maps, attaching it. (Skeleton `open` only parses
the embedded object file; rlimit and ordinary file I/O are not BPF
kernel interactions.) -/
def Step.isKernelInteraction : Step → Bool
  | Step.load _ => true
  | Step.mapUpdate _ _ _ _ => true
  | Step.attach => true
  | _ => false

/-- Is this step a `fatal` termination? -/
def Step.isFatal : Step → Bool
  | Step.fatal _ => true
  | _ => false

/-- The `BPF_ANY` update flag (insert or overwrite). -/
def BPF_ANY : Nat := 0

/-- The `BPF_NOEXIST` update flag (insert only, fail if present). -/
def BPF_NOEXIST : Nat := 1

/-- The `BPF_EXIST` update flag (overwrite only, fail if absent). -/
def BPF_EXIST : Nat := 2

/-- Modelled from the spec: the kernel map-update call used at
line 177 (`bpf_map_update_elem`, which is libbpf code outside this
repository). The spec describes the cgroup-filter table as "keyed by
integer index, value = file descriptor", supporting insert-or-overwrite
updates; `BPF_NOEXIST` fails on a present key and `BPF_EXIST` on an
absent one, while `BPF_ANY` never fails. -/
def mapUpdateElem (m : Nat → Option Nat) (k v flag : Nat) :
    Option (Nat → Option Nat) :=
  if flag = BPF_NOEXIST ∧ (m k).isSome then none
  else if flag = BPF_EXIST ∧ m k = none then none
  else some (fun j => if j = k then some v else m j)

/-- The diagnostic line produced by `handle_lost_events`
(lines 144-146): `eprintln!("Lost \x7b\x7d events on CPU \x7b\x7d", count, cpu)`. -/
def handle_lost_events (cpu : Int) (count : Nat) : String :=
  "Lost " ++ toString count ++ " events on CPU " ++ toString cpu

/-- The diagnostic message for a failed file write (lines 201, 209,
238, 258; the attached io-error text is elided). -/
def writeErrMsg : String :=
  "Couldn" ++ String.singleton (Char.ofNat 39) ++ "t write to file"

/-- Environment resolving every fallible external call of one run. -/
structure Env where
  rlimitOk : Bool
  skOpenOk : Bool
  loadOk : Bool
  cgroupFd : Option Nat
  attachOk : Bool
  outputExists : Bool
  removeOk : Bool
  outputOpenOk : Bool
  headerWriteOk : Bool
  items : List PerfItem
deriving DecidableEq, Repr

/-- The steps of one `handle_event` invocation after a successful
decode: the file-write attempt (with a diagnostic on failure,
lines 238/258), then the console line (always printed). -/
def sampleSteps (extra : Bool) (ev : Event) (ok : Bool) : List Step :=
  (Step.fileWrite (renderLine extra ev) ok ::
    (if ok then [] else [Step.diag writeErrMsg])) ++
  [Step.consoleWrite (renderLine extra ev)]

/-- Process the stream of perf items: each sample runs the decode
stage of `handle_event` (a failed `copy_from_bytes` or `from_utf8`
panics, ending the run), each loss report runs
`handle_lost_events`. -/
def processItems (extra : Bool) : List PerfItem → List Step
  | [] => []
  | PerfItem.sample data ok :: rest =>
    match decodeRaw data with
    | none => [Step.fatal "Data buffer was too short"]
    | some r =>
      match commText r.comm with
      | none => [Step.fatal "invalid utf-8 in comm"]
      | some c =>
        sampleSteps extra
          { uid := r.uid, tgid := r.tgid, pid := r.pid, comm := c,
            cap := r.cap, audit := r.audit, insetid := r.insetid } ok ++
        processItems extra rest
  | PerfItem.lost cpu count :: rest =>
    Step.diag (handle_lost_events cpu count) :: processItems extra rest

/-- Steps from `print_banner` onwards (lines 187-273): console header,
output-file open (create + write + append, NOT truncate), the file
header write (non-fatal on failure), then the poll loop's items. -/
def postRemove (env : Env) (opts : Command) : List Step :=
  Step.consoleWrite (Line.header opts.extra_fields) ::
  Step.openOutput opts.output_file true true true false ::
  if env.outputOpenOk = false then [Step.fatal "failed to open output file"]
  else
    (Step.fileWrite (Line.header opts.extra_fields) env.headerWriteOk ::
      (if env.headerWriteOk then [] else [Step.diag writeErrMsg])) ++
    processItems opts.extra_fields env.items

/-- Steps after `skel.attach()` succeeds (lines 183-194): delete a
pre-existing output file (an `unwrap` failure is fatal), then
`postRemove`. -/
def afterAttach (env : Env) (opts : Command) : List Step :=
  if env.outputExists then
    Step.removeFile opts.output_file ::
    (if env.removeOk = false then [Step.fatal "failed to remove output file"]
     else postRemove env opts)
  else postRemove env opts

/-- The full trace of `main` (lines 148-274): rlimit bump, skeleton
open, the three pre-load configuration writes, load (carrying the
configuration region's value at that moment), cgroup-path open
(`panic!` on failure), cgroup-map update with `BPF_ANY`, attach, then
`afterAttach`. -/
def mainTrace (env : Env) (opts : Command) : List Step :=
  Step.rlimit ::
  if env.rlimitOk = false then [Step.fatal "Failed to increase rlimit"]
  else
    Step.skOpen ::
    if env.skOpenOk = false then [Step.fatal "failed to open BPF skeleton"]
    else
      Step.setTgid opts.pid ::
      Step.setVerbose opts.verbose ::
      Step.setUnique opts.unique_type ::
      Step.load { tgid := opts.pid, verbose := opts.verbose,
                  unique_type := opts.unique_type } ::
      if env.loadOk = false then [Step.fatal "failed to load BPF program"]
      else
        Step.openCgroup opts.cgroups_path ::
        match env.cgroupFd with
        | none => [Step.fatal "Unable to open cgroupsPath"]
        | some fd =>
          Step.mapUpdate "cgroup_map" 0 fd BPF_ANY ::
          Step.attach ::
          if env.attachOk = false then [Step.fatal "failed to attach"]
          else afterAttach env opts

/-- The whole CLI run: `structopt` parses the `--unique` token via
`uniqueness::from_str` before `main`'s body runs; on a parse error the
process exits without performing a single step of `mainTrace`. -/
def runCli (uniqueTok : String) (env : Env) (opts : Command) : List Step :=
  match uniquenessFromStr uniqueTok with
  | Except.error _ => []
  | Except.ok u => mainTrace env { opts with unique_type := u }

/-- The sequence of lines printed to the console sink. -/
def consoleLines (t : List Step) : List Line :=
  t.filterMap (fun s => match s with
    | Step.consoleWrite l => some l
    | _ => none)

/-- The sequence of lines whose write to the file sink was attempted. -/
def fileLines (t : List Step) : List Line :=
  t.filterMap (fun s => match s with
    | Step.fileWrite l _ => some l
    | _ => none)

/-- A run whose startup (everything up to and including opening the
output file) succeeds. -/
def startupOk (env : Env) : Prop :=
  env.rlimitOk = true ∧ env.skOpenOk = true ∧ env.loadOk = true ∧
  env.cgroupFd ≠ none ∧ env.attachOk = true ∧
  (env.outputExists = false ∨ env.removeOk = true) ∧
  env.outputOpenOk = true

instance (env : Env) : Decidable (startupOk env) := by
  unfold startupOk; infer_instance

/-! ### Substring containment (for diagnostic-message claims) -/

/-- Does `pat` occur as a contiguous run inside `hay`? -/
def subLst : List Char → List Char → Bool
  | [], pat => pat.isEmpty
  | x :: t, pat => pat.isPrefixOf (x :: t) || subLst t pat

/-- Substring test on strings. -/
def subStr (hay pat : String) : Bool := subLst hay.data pat.data

/-- The 36-byte record whose comm field holds `"sshd"` followed by
twelve NUL bytes, all other fields zero. -/
def sshdBuffer : List Nat :=
  List.replicate 12 0 ++ [115, 115, 104, 100] ++ List.replicate 20 0

/-- A 36-byte record whose comm field starts with the invalid UTF-8
byte `0xFF`, all other fields zero. -/
def badCommBuffer : List Nat :=
  List.replicate 12 0 ++ (255 :: List.replicate 23 0)

/-- A concrete all-successful environment used to instantiate the
run-trace theorems on closed inputs. -/
def envW : Env :=
  { rlimitOk := true, skOpenOk := true, loadOk := true, cgroupFd := some 7,
    attachOk := true, outputExists := true, removeOk := true,
    outputOpenOk := true, headerWriteOk := true, items := [] }

/-- Concrete command-line options used to instantiate the run-trace
theorems on closed inputs. -/
def optsW : Command :=
  { verbose := false, pid := 1234, extra_fields := false,
    unique_type := uniqueness.UNQ_OFF, debug := false,
    cgroups_path := "/sys/fs/cgroup/unified", output_file := "/tmp/bpf_capable.log" }

/-! ### Helper lemmas about the codec -/

theorem decodeRaw_short {data : List Nat} (h : data.length < eventSize) :
    decodeRaw data = none := by
  unfold decodeRaw
  rw [if_pos h]

theorem decodeRaw_append (data extra : List Nat) (h : eventSize ≤ data.length) :
    decodeRaw (data ++ extra) = decodeRaw data := by
  unfold decodeRaw
  rw [List.take_append_of_le_length h]
  have h1 : ¬ (data ++ extra).length < eventSize := by
    rw [List.length_append]; omega
  have h2 : ¬ data.length < eventSize := by omega
  rw [if_neg h1, if_neg h2]

theorem decodeEvent_append (data extra : List Nat) (h : eventSize ≤ data.length) :
    decodeEvent (data ++ extra) = decodeEvent data := by
  unfold decodeEvent
  rw [decodeRaw_append data extra h]

/-! ### Claims about the codec and the registry -/

/-- C1: a buffer shorter than the fixed record layout fails to decode
and makes the pipeline stop fatally rather than proceed with a partial
record; a buffer of exactly the record length and all zero decodes to
the event with uid = tgid = pid = 0, empty comm, cap = 0,
audit = false, insetid = false; and extra trailing bytes beyond the
record length never change the result of decoding. -/
theorem C1_event_codec_length :
    (∀ data : List Nat, data.length < eventSize → decodeEvent data = none) ∧
    decodeEvent (List.replicate eventSize 0) =
      some { uid := 0, tgid := 0, pid := 0, comm := "", cap := 0,
             audit := false, insetid := false } ∧
    (∀ data extra : List Nat, eventSize ≤ data.length →
      decodeEvent (data ++ extra) = decodeEvent data) ∧
    (∀ (extraCols : Bool) (data : List Nat) (ok : Bool) (rest : List PerfItem),
      data.length < eventSize →
      processItems extraCols (PerfItem.sample data ok :: rest) =
        [Step.fatal "Data buffer was too short"]) := by
  refine ⟨?_, by decide, decodeEvent_append, ?_⟩
  · intro data h
    unfold decodeEvent
    rw [decodeRaw_short h]
  · intro extraCols data ok rest h
    simp [processItems, decodeRaw_short h]

theorem C1_event_codec_length_witness :
    decodeEvent (List.replicate 35 0) = none ∧
    decodeEvent (List.replicate eventSize 0 ++ [7, 7]) =
      decodeEvent (List.replicate eventSize 0) ∧
    processItems false [PerfItem.sample [1, 2, 3] true] =
      [Step.fatal "Data buffer was too short"] :=
  ⟨C1_event_codec_length.1 (List.replicate 35 0) (by decide),
   C1_event_codec_length.2.2.1 (List.replicate eventSize 0) [7, 7] (by decide),
   C1_event_codec_length.2.2.2 false [1, 2, 3] true [] (by decide)⟩

/-- C2: for every id in 0..40 the registry lookup returns the fixed
canonical name (21 maps to CAP_SYS_ADMIN), and for every id outside
that range it returns the unknown marker; `capName` is a total Lean
function, so the lookup has no failure mode. -/
theorem C2_capability_registry :
    capName 21 = "CAP_SYS_ADMIN" ∧
    (∀ id : Int, 0 ≤ id → id ≤ 40 → capName id ≠ "?") ∧
    (∀ id : Int, id < 0 ∨ 40 < id → capName id = "?") := by
  refine ⟨by decide, ?_, ?_⟩
  · intro id h1 h2
    interval_cases id <;> decide
  · intro id h
    have hnone : CAPS.find? (fun p => p.1 == id) = none := by
      rw [List.find?_eq_none]
      intro p hp
      have hall : ∀ q ∈ CAPS, (0 : Int) ≤ q.1 ∧ q.1 ≤ 40 := by decide
      have hb := hall p hp
      simp only [beq_iff_eq]
      omega
    unfold capName capsGet
    rw [hnone]
    rfl

theorem C2_capability_registry_witness :
    capName 40 ≠ "?" ∧ capName (-1) = "?" ∧ capName 41 = "?" :=
  ⟨C2_capability_registry.2.1 40 (by decide) (by decide),
   C2_capability_registry.2.2 (-1) (Or.inl (by decide)),
   C2_capability_registry.2.2 41 (Or.inr (by decide))⟩

/-- C5: the fixed-width comm bytes are interpreted as text with
trailing NUL padding trimmed (the 16-byte `"sshd"` + twelve NULs
decodes to `"sshd"`), and comm bytes that are not valid UTF-8 make the
decode stage fail fatally instead of substituting a blank value. -/
theorem C5_comm_decoding :
    decodeEvent sshdBuffer =
      some { uid := 0, tgid := 0, pid := 0, comm := "sshd", cap := 0,
             audit := false, insetid := false } ∧
    decodeEvent badCommBuffer = none ∧
    (∀ (data : List Nat) (r : RawEvent),
      decodeRaw data = some r → commText r.comm = none →
      decodeEvent data = none) ∧
    (∀ (extraCols : Bool) (data : List Nat) (ok : Bool) (rest : List PerfItem)
      (r : RawEvent), decodeRaw data = some r → commText r.comm = none →
      processItems extraCols (PerfItem.sample data ok :: rest) =
        [Step.fatal "invalid utf-8 in comm"]) := by
  refine ⟨by decide, by decide, ?_, ?_⟩
  · intro data r h1 h2
    simp [decodeEvent, h1, h2]
  · intro extraCols data ok rest r h1 h2
    simp [processItems, h1, h2]

theorem C5_comm_decoding_witness :
    processItems false [PerfItem.sample badCommBuffer true] =
      [Step.fatal "invalid utf-8 in comm"] :=
  C5_comm_decoding.2.2.2 false badCommBuffer true []
    { uid := 0, tgid := 0, pid := 0, comm := 255 :: List.replicate 15 0,
      cap := 0, audit := false, insetid := false }
    (by decide) (by decide)

/-- C3 counterexample: for the rejected token `"container"` the error
message is the fixed string `"Use 1 for pid (default), 2 for cgroups"`,
which does not name the accepted token `"off"` at all, and the numeric
tokens `"1"` and `"2"` that it does suggest are themselves rejected by
the parser, so the message does not name the accepted tokens. -/
theorem C3_unique_token_message_counterexample :
    uniquenessFromStr "container" = Except.error uniquenessErrMsg ∧
    subStr uniquenessErrMsg "off" = false ∧
    uniquenessFromStr "1" = Except.error uniquenessErrMsg ∧
    uniquenessFromStr "2" = Except.error uniquenessErrMsg :=
  ⟨rfl, by decide, rfl, rfl⟩

/-- C3 (amended): uniqueness-token parsing is case-insensitive over
exactly the three tokens `off`, `pid`, `cgroup` (`"PID"`, `"pid"`,
`"Pid"` all parse to the same mode); every other token (e.g.
`"container"`) fails before any kernel interaction occurs, with a
fixed error message — but that message does not name the accepted
tokens (it omits `off` and suggests the numeric values `1` and `2`,
which the parser rejects). -/
theorem C3_unique_token_parsing :
    uniquenessFromStr "PID" = Except.ok uniqueness.UNQ_PID ∧
    uniquenessFromStr "pid" = Except.ok uniqueness.UNQ_PID ∧
    uniquenessFromStr "Pid" = Except.ok uniqueness.UNQ_PID ∧
    uniquenessFromStr "off" = Except.ok uniqueness.UNQ_OFF ∧
    uniquenessFromStr "OFF" = Except.ok uniqueness.UNQ_OFF ∧
    uniquenessFromStr "cgroup" = Except.ok uniqueness.UNQ_CGROUP ∧
    uniquenessFromStr "CGROUP" = Except.ok uniqueness.UNQ_CGROUP ∧
    (∀ s : String, (∃ u, uniquenessFromStr s = Except.ok u) ↔
      (strToLower s = "off" ∨ strToLower s = "pid" ∨ strToLower s = "cgroup")) ∧
    (∀ s : String, strToLower s ≠ "off" → strToLower s ≠ "pid" →
      strToLower s ≠ "cgroup" →
      uniquenessFromStr s = Except.error uniquenessErrMsg) ∧
    (∀ (tok : String) (env : Env) (opts : Command) (e : String),
      uniquenessFromStr tok = Except.error e → runCli tok env opts = []) := by
  refine ⟨rfl, rfl, rfl, rfl, rfl, rfl, rfl, ?_, ?_, ?_⟩
  · intro s
    unfold uniquenessFromStr
    by_cases h1 : strToLower s = "off"
    · simp [h1]
    · by_cases h2 : strToLower s = "pid"
      · simp [h1, h2]
      · by_cases h3 : strToLower s = "cgroup"
        · simp [h1, h2, h3]
        · simp [h1, h2, h3]
  · intro s h1 h2 h3
    unfold uniquenessFromStr
    simp [h1, h2, h3]
  · intro tok env opts e h
    unfold runCli
    rw [h]

theorem C3_unique_token_parsing_witness :
    uniquenessFromStr "container" = Except.error uniquenessErrMsg ∧
    runCli "container" envW optsW = [] :=
  ⟨C3_unique_token_parsing.2.2.2.2.2.2.2.2.1 "container"
      (by decide) (by decide) (by decide),
   C3_unique_token_parsing.2.2.2.2.2.2.2.2.2 "container" envW optsW
      uniquenessErrMsg rfl⟩

/-- C4: the filter pid, verbose flag and uniqueness mode are written
into the pre-load configuration region strictly after the skeleton
`open` step and strictly before the `load` step; the configuration
carried into `load` has `tgid` equal to the configured pid; and no
BPF kernel interaction (load / map update / attach) occurs before
those assignments. -/
theorem C4_preload_config_ordering (env : Env) (opts : Command)
    (h1 : env.rlimitOk = true) (h2 : env.skOpenOk = true) :
    ∃ rest, mainTrace env opts =
      Step.rlimit :: Step.skOpen :: Step.setTgid opts.pid ::
      Step.setVerbose opts.verbose :: Step.setUnique opts.unique_type ::
      Step.load { tgid := opts.pid, verbose := opts.verbose,
                  unique_type := opts.unique_type } :: rest ∧
      (∀ s ∈ [Step.rlimit, Step.skOpen], s.isKernelInteraction = false) := by
  refine ⟨(if env.loadOk = false then [Step.fatal "failed to load BPF program"]
           else Step.openCgroup opts.cgroups_path ::
             match env.cgroupFd with
             | none => [Step.fatal "Unable to open cgroupsPath"]
             | some fd =>
               Step.mapUpdate "cgroup_map" 0 fd BPF_ANY :: Step.attach ::
                 (if env.attachOk = false then [Step.fatal "failed to attach"]
                  else afterAttach env opts)), ?_, by decide⟩
  simp [mainTrace, h1, h2]

theorem C4_preload_config_ordering_witness :
    ∃ rest, mainTrace envW optsW =
      Step.rlimit :: Step.skOpen :: Step.setTgid 1234 ::
      Step.setVerbose false :: Step.setUnique uniqueness.UNQ_OFF ::
      Step.load { tgid := 1234, verbose := false,
                  unique_type := uniqueness.UNQ_OFF } :: rest ∧
      (∀ s ∈ [Step.rlimit, Step.skOpen], s.isKernelInteraction = false) :=
  C4_preload_config_ordering envW optsW rfl rfl

/-- C6: the cgroup path is opened strictly after `load` and, on
success, the file descriptor is installed at index 0 of the
cgroup-filter table with the `BPF_ANY` flag strictly before `attach`;
failure to open the path ends the run fatally with no attach; and a
`BPF_ANY` update never fails and fully replaces the value at the
index. -/
theorem C6_cgroup_filter_install (env : Env) (opts : Command)
    (h1 : env.rlimitOk = true) (h2 : env.skOpenOk = true)
    (h3 : env.loadOk = true) :
    (∃ rest, mainTrace env opts =
      Step.rlimit :: Step.skOpen :: Step.setTgid opts.pid ::
      Step.setVerbose opts.verbose :: Step.setUnique opts.unique_type ::
      Step.load { tgid := opts.pid, verbose := opts.verbose,
                  unique_type := opts.unique_type } ::
      Step.openCgroup opts.cgroups_path :: rest ∧
      (env.cgroupFd = none → rest = [Step.fatal "Unable to open cgroupsPath"]) ∧
      (∀ fd, env.cgroupFd = some fd → ∃ rest2,
        rest = Step.mapUpdate "cgroup_map" 0 fd BPF_ANY :: Step.attach :: rest2)) ∧
    (∀ (m : Nat → Option Nat) (fd : Nat), ∃ m2,
      mapUpdateElem m 0 fd BPF_ANY = some m2 ∧ m2 0 = some fd ∧
      ∀ k, k ≠ 0 → m2 k = m k) := by
  constructor
  · refine ⟨(match env.cgroupFd with
             | none => [Step.fatal "Unable to open cgroupsPath"]
             | some fd =>
               Step.mapUpdate "cgroup_map" 0 fd BPF_ANY :: Step.attach ::
                 (if env.attachOk = false then [Step.fatal "failed to attach"]
                  else afterAttach env opts)), ?_, ?_, ?_⟩
    · simp [mainTrace, h1, h2, h3]
    · intro hn
      rw [hn]
    · intro fd hfd
      rw [hfd]
      exact ⟨_, rfl⟩
  · intro m fd
    refine ⟨fun j => if j = 0 then some fd else m j, ?_, ?_, ?_⟩
    · simp [mapUpdateElem, BPF_ANY, BPF_NOEXIST, BPF_EXIST]
    · simp
    · intro k hk
      simp [hk]

theorem C6_cgroup_filter_install_witness :
    ∃ m2, mapUpdateElem (fun _ => none) 0 7 BPF_ANY = some m2 ∧
      m2 0 = some 7 ∧ ∀ k, k ≠ 0 → m2 k = (fun _ => (none : Option Nat)) k :=
  (C6_cgroup_filter_install envW optsW rfl rfl rfl).2 (fun _ => none) 7

/-! ### Helper lemmas about the presentation sinks -/

theorem renderLine_shape (extra : Bool) (ev : Event) :
    (renderLine extra ev).isHeader = false ∧ (renderLine extra ev).layout = extra := by
  cases extra <;> simp [renderLine, Line.isHeader, Line.layout]

theorem consoleLines_sampleSteps (extra : Bool) (ev : Event) (ok : Bool) :
    consoleLines (sampleSteps extra ev ok) = [renderLine extra ev] := by
  cases ok <;> simp [sampleSteps, consoleLines]

theorem fileLines_sampleSteps (extra : Bool) (ev : Event) (ok : Bool) :
    fileLines (sampleSteps extra ev ok) = [renderLine extra ev] := by
  cases ok <;> simp [sampleSteps, fileLines]

theorem lines_processItems (extra : Bool) (items : List PerfItem) :
    (∀ l ∈ consoleLines (processItems extra items),
      l.isHeader = false ∧ l.layout = extra) ∧
    (∀ l ∈ fileLines (processItems extra items),
      l.isHeader = false ∧ l.layout = extra) := by
  induction items with
  | nil => simp [processItems, consoleLines, fileLines]
  | cons it rest ih =>
    cases it with
    | sample data ok =>
      cases hr : decodeRaw data with
      | none => simp [processItems, hr, consoleLines, fileLines]
      | some r =>
        cases hc : commText r.comm with
        | none => simp [processItems, hr, hc, consoleLines, fileLines]
        | some c =>
          constructor
          · intro l hl
            rw [show processItems extra (PerfItem.sample data ok :: rest) =
                  sampleSteps extra
                    { uid := r.uid, tgid := r.tgid, pid := r.pid, comm := c,
                      cap := r.cap, audit := r.audit, insetid := r.insetid } ok ++
                  processItems extra rest by simp [processItems, hr, hc]] at hl
            rw [consoleLines, List.filterMap_append] at hl
            rw [← consoleLines, ← consoleLines, consoleLines_sampleSteps] at hl
            rcases List.mem_append.mp hl with h | h
            · rcases List.mem_singleton.mp h with rfl
              exact renderLine_shape extra _
            · exact ih.1 l h
          · intro l hl
            rw [show processItems extra (PerfItem.sample data ok :: rest) =
                  sampleSteps extra
                    { uid := r.uid, tgid := r.tgid, pid := r.pid, comm := c,
                      cap := r.cap, audit := r.audit, insetid := r.insetid } ok ++
                  processItems extra rest by simp [processItems, hr, hc]] at hl
            rw [fileLines, List.filterMap_append] at hl
            rw [← fileLines, ← fileLines, fileLines_sampleSteps] at hl
            rcases List.mem_append.mp hl with h | h
            · rcases List.mem_singleton.mp h with rfl
              exact renderLine_shape extra _
            · exact ih.2 l h
    | lost cpu count =>
      constructor
      · intro l hl
        rw [show processItems extra (PerfItem.lost cpu count :: rest) =
              Step.diag (handle_lost_events cpu count) :: processItems extra rest
            from rfl] at hl
        rw [show consoleLines (Step.diag (handle_lost_events cpu count) ::
              processItems extra rest) = consoleLines (processItems extra rest)
            by simp [consoleLines]] at hl
        exact ih.1 l hl
      · intro l hl
        rw [show processItems extra (PerfItem.lost cpu count :: rest) =
              Step.diag (handle_lost_events cpu count) :: processItems extra rest
            from rfl] at hl
        rw [show fileLines (Step.diag (handle_lost_events cpu count) ::
              processItems extra rest) = fileLines (processItems extra rest)
            by simp [fileLines]] at hl
        exact ih.2 l hl

theorem consoleLines_postRemove (env : Env) (opts : Command)
    (h7 : env.outputOpenOk = true) :
    consoleLines (postRemove env opts) =
      Line.header opts.extra_fields ::
        consoleLines (processItems opts.extra_fields env.items) := by
  cases hw : env.headerWriteOk <;> simp [postRemove, h7, hw, consoleLines]

theorem fileLines_postRemove (env : Env) (opts : Command)
    (h7 : env.outputOpenOk = true) :
    fileLines (postRemove env opts) =
      Line.header opts.extra_fields ::
        fileLines (processItems opts.extra_fields env.items) := by
  cases hw : env.headerWriteOk <;> simp [postRemove, h7, hw, fileLines]

theorem lines_afterAttach (env : Env) (opts : Command)
    (h6 : env.outputExists = false ∨ env.removeOk = true) :
    consoleLines (afterAttach env opts) = consoleLines (postRemove env opts) ∧
    fileLines (afterAttach env opts) = fileLines (postRemove env opts) := by
  cases hoe : env.outputExists
  · simp [afterAttach, hoe]
  · have hro : env.removeOk = true := by
      rcases h6 with h | h
      · rw [hoe] at h; exact absurd h (by decide)
      · exact h
    simp [afterAttach, hoe, hro, consoleLines, fileLines]

theorem lines_mainTrace (env : Env) (opts : Command) (fd : Nat)
    (h1 : env.rlimitOk = true) (h2 : env.skOpenOk = true)
    (h3 : env.loadOk = true) (hfd : env.cgroupFd = some fd)
    (h5 : env.attachOk = true) :
    consoleLines (mainTrace env opts) = consoleLines (afterAttach env opts) ∧
    fileLines (mainTrace env opts) = fileLines (afterAttach env opts) := by
  constructor <;> simp [mainTrace, h1, h2, h3, hfd, h5, consoleLines, fileLines]

/-- C7: under a successful startup, the header line of the layout
selected at startup is written exactly once to the console sink and
exactly once to the file sink, strictly before any event line on
either sink, and every subsequent line on both sinks is an event line
of that same fixed layout. -/
theorem C7_header_once (env : Env) (opts : Command) (h : startupOk env) :
    (∃ cs, consoleLines (mainTrace env opts) =
      Line.header opts.extra_fields :: cs ∧
      ∀ l ∈ cs, l.isHeader = false ∧ l.layout = opts.extra_fields) ∧
    (∃ fs, fileLines (mainTrace env opts) =
      Line.header opts.extra_fields :: fs ∧
      ∀ l ∈ fs, l.isHeader = false ∧ l.layout = opts.extra_fields) := by
  obtain ⟨h1, h2, h3, h4, h5, h6, h7⟩ := h
  obtain ⟨fd, hfd⟩ : ∃ fd, env.cgroupFd = some fd := by
    cases hc : env.cgroupFd with
    | none => exact absurd hc h4
    | some fd => exact ⟨fd, rfl⟩
  have hm := lines_mainTrace env opts fd h1 h2 h3 hfd h5
  have ha := lines_afterAttach env opts h6
  constructor
  · refine ⟨consoleLines (processItems opts.extra_fields env.items), ?_, ?_⟩
    · rw [hm.1, ha.1, consoleLines_postRemove env opts h7]
    · exact (lines_processItems opts.extra_fields env.items).1
  · refine ⟨fileLines (processItems opts.extra_fields env.items), ?_, ?_⟩
    · rw [hm.2, ha.2, fileLines_postRemove env opts h7]
    · exact (lines_processItems opts.extra_fields env.items).2

theorem C7_header_once_witness :
    (∃ cs, consoleLines (mainTrace envW optsW) = Line.header false :: cs ∧
      ∀ l ∈ cs, l.isHeader = false ∧ l.layout = false) ∧
    (∃ fs, fileLines (mainTrace envW optsW) = Line.header false :: fs ∧
      ∀ l ∈ fs, l.isHeader = false ∧ l.layout = false) :=
  C7_header_once envW optsW (by decide)

/-- C8: for an event that decodes, a failed file write produces one
diagnostic and still produces the console line; the pipeline then
continues with the remaining items; each event yields exactly one
file-write attempt and one console line, emitted immediately in that
order; and none of the per-event steps is fatal. -/
theorem C8_file_write_failure_nonfatal (extra : Bool) (data : List Nat)
    (ok : Bool) (rest : List PerfItem) (ev : Event)
    (h : decodeEvent data = some ev) :
    processItems extra (PerfItem.sample data ok :: rest) =
      sampleSteps extra ev ok ++ processItems extra rest ∧
    (ok = false → sampleSteps extra ev ok =
      [Step.fileWrite (renderLine extra ev) false, Step.diag writeErrMsg,
       Step.consoleWrite (renderLine extra ev)]) ∧
    (ok = true → sampleSteps extra ev ok =
      [Step.fileWrite (renderLine extra ev) true,
       Step.consoleWrite (renderLine extra ev)]) ∧
    (∀ s ∈ sampleSteps extra ev ok, s.isFatal = false) := by
  obtain ⟨r, hr, c, hc, hev⟩ : ∃ r, decodeRaw data = some r ∧
      ∃ c, commText r.comm = some c ∧
        ev = { uid := r.uid, tgid := r.tgid, pid := r.pid, comm := c,
               cap := r.cap, audit := r.audit, insetid := r.insetid } := by
    unfold decodeEvent at h
    split at h
    · exact absurd h (by simp)
    next r hr =>
      split at h
      · exact absurd h (by simp)
      next c hc =>
        simp only [Option.some.injEq] at h
        exact ⟨r, hr, c, hc, h.symm⟩
  subst hev
  refine ⟨by simp [processItems, hr, hc], by intro h'; subst h'; rfl,
    by intro h'; subst h'; rfl, ?_⟩
  intro s hs
  cases ok <;> simp [sampleSteps] at hs <;> rcases hs with rfl | rfl | rfl <;> rfl

theorem C8_file_write_failure_nonfatal_witness :
    processItems false [PerfItem.sample sshdBuffer false] =
      sampleSteps false
        { uid := 0, tgid := 0, pid := 0, comm := "sshd", cap := 0,
          audit := false, insetid := false } false ++ processItems false [] ∧
    (false = false → sampleSteps false
        { uid := 0, tgid := 0, pid := 0, comm := "sshd", cap := 0,
          audit := false, insetid := false } false =
      [Step.fileWrite (renderLine false
        { uid := 0, tgid := 0, pid := 0, comm := "sshd", cap := 0,
          audit := false, insetid := false }) false, Step.diag writeErrMsg,
       Step.consoleWrite (renderLine false
        { uid := 0, tgid := 0, pid := 0, comm := "sshd", cap := 0,
          audit := false, insetid := false })]) ∧
    (false = true → sampleSteps false
        { uid := 0, tgid := 0, pid := 0, comm := "sshd", cap := 0,
          audit := false, insetid := false } false =
      [Step.fileWrite (renderLine false
        { uid := 0, tgid := 0, pid := 0, comm := "sshd", cap := 0,
          audit := false, insetid := false }) true,
       Step.consoleWrite (renderLine false
        { uid := 0, tgid := 0, pid := 0, comm := "sshd", cap := 0,
          audit := false, insetid := false })]) ∧
    (∀ s ∈ sampleSteps false
        { uid := 0, tgid := 0, pid := 0, comm := "sshd", cap := 0,
          audit := false, insetid := false } false, s.isFatal = false) :=
  C8_file_write_failure_nonfatal false sshdBuffer false []
    { uid := 0, tgid := 0, pid := 0, comm := "sshd", cap := 0,
      audit := false, insetid := false } (by decide)

/-! ### Helper lemmas about substring containment -/

theorem subLst_nil_pat (l : List Char) : subLst l [] = true := by
  cases l <;> simp [subLst, List.isPrefixOf]

theorem isPrefixOf_append_self (p q : List Char) :
    p.isPrefixOf (p ++ q) = true := by
  induction p with
  | nil => simp [List.isPrefixOf]
  | cons a t ih => simp [List.isPrefixOf, ih]

theorem subLst_append_self (p q : List Char) : subLst (p ++ q) p = true := by
  cases p with
  | nil => simpa using subLst_nil_pat q
  | cons x t =>
    have h := isPrefixOf_append_self (x :: t) q
    simp only [List.cons_append] at h
    simp [subLst, h]

theorem subLst_cons (x : Char) (t pat : List Char)
    (h : subLst t pat = true) : subLst (x :: t) pat = true := by
  simp only [subLst]
  rw [h]
  simp

theorem subLst_append_left (a l pat : List Char)
    (h : subLst l pat = true) : subLst (a ++ l) pat = true := by
  induction a with
  | nil => simpa using h
  | cons x t ih =>
    simp only [List.cons_append]
    exact subLst_cons x _ _ ih

/-- C9: a lost-events callback for a given CPU and count inserts one
diagnostic message referencing both the count and the CPU id into the
step stream, leaves the processing of every other delivered item
unchanged, and processing continues with the remaining items. -/
theorem C9_lost_events (extra : Bool) (cpu : Int) (count : Nat)
    (rest : List PerfItem) :
    processItems extra (PerfItem.lost cpu count :: rest) =
      Step.diag (handle_lost_events cpu count) :: processItems extra rest ∧
    subStr (handle_lost_events cpu count) (toString count) = true ∧
    subStr (handle_lost_events cpu count) (toString cpu) = true := by
  refine ⟨rfl, ?_, ?_⟩
  · unfold subStr handle_lost_events
    rw [String.data_append, String.data_append, String.data_append]
    simp only [List.append_assoc]
    apply subLst_append_left
    apply subLst_append_self
  · unfold subStr handle_lost_events
    rw [String.data_append, String.data_append, String.data_append]
    simp only [List.append_assoc]
    apply subLst_append_left
    apply subLst_append_left
    apply subLst_append_left
    have := subLst_append_self (toString cpu).data []
    simpa using this

/-- C10: after attach, a pre-existing file at the output path is
deleted outright with `remove_file` (not truncated: the subsequent
open has truncate = false) strictly before the output file is opened;
a failed delete or a failed open ends the run fatally at once; and the
per-event write steps are never fatal, in contrast. -/
theorem C10_output_file_reset (env : Env) (opts : Command)
    (h1 : env.rlimitOk = true) (h2 : env.skOpenOk = true)
    (h3 : env.loadOk = true) (h4 : env.cgroupFd ≠ none)
    (h5 : env.attachOk = true) :
    (∃ pre, mainTrace env opts = pre ++ afterAttach env opts) ∧
    (env.outputExists = true → env.removeOk = false →
      afterAttach env opts = [Step.removeFile opts.output_file,
        Step.fatal "failed to remove output file"]) ∧
    (env.outputExists = true → env.removeOk = true →
      afterAttach env opts =
        Step.removeFile opts.output_file :: postRemove env opts) ∧
    (env.outputExists = false → afterAttach env opts = postRemove env opts) ∧
    (∃ tail, postRemove env opts =
      Step.consoleWrite (Line.header opts.extra_fields) ::
      Step.openOutput opts.output_file true true true false :: tail ∧
      (env.outputOpenOk = false →
        tail = [Step.fatal "failed to open output file"])) ∧
    (∀ (extraCols : Bool) (ev : Event) (ok : Bool),
      ∀ s ∈ sampleSteps extraCols ev ok, s.isFatal = false) := by
  obtain ⟨fd, hfd⟩ : ∃ fd, env.cgroupFd = some fd := by
    cases hc : env.cgroupFd with
    | none => exact absurd hc h4
    | some fd => exact ⟨fd, rfl⟩
  refine ⟨⟨[Step.rlimit, Step.skOpen, Step.setTgid opts.pid,
      Step.setVerbose opts.verbose, Step.setUnique opts.unique_type,
      Step.load { tgid := opts.pid, verbose := opts.verbose,
                  unique_type := opts.unique_type },
      Step.openCgroup opts.cgroups_path,
      Step.mapUpdate "cgroup_map" 0 fd BPF_ANY, Step.attach],
      by simp [mainTrace, h1, h2, h3, hfd, h5]⟩, ?_, ?_, ?_, ?_, ?_⟩
  · intro he hr
    simp [afterAttach, he, hr]
  · intro he hr
    simp [afterAttach, he, hr]
  · intro he
    simp [afterAttach, he]
  · refine ⟨_, rfl, ?_⟩
    intro ho
    simp [ho]
  · intro extraCols ev ok s hs
    cases ok <;> simp [sampleSteps] at hs <;> rcases hs with rfl | rfl | rfl <;> rfl

theorem C10_output_file_reset_witness :
    afterAttach envW optsW =
      Step.removeFile optsW.output_file :: postRemove envW optsW ∧
    ∃ pre, mainTrace envW optsW = pre ++ afterAttach envW optsW :=
  ⟨(C10_output_file_reset envW optsW rfl rfl rfl (by decide) rfl).2.2.1 rfl rfl,
   (C10_output_file_reset envW optsW rfl rfl rfl (by decide) rfl).1⟩

end Capable
